import Mathlib

/-!
Verification development for the `agents_of_change` demo repository,
centred on the Stock Market Chat demo: the MCP connection manager
(`services/mcp_service.py`), input validation and error translation
(`utils/error_handler.py`), the streaming chat route
(`routes/chat_routes.py`), and the API usage tracker
(`utils/api_usage_tracker.py`).

Python code is shallowly embedded: stateful methods become explicit
state-passing functions, exceptions become `Except`/`Option` results,
and the nondeterministic environment (which connection attempts
succeed, which UUID is minted, which events the agent run emits) is
passed in as explicit data.
-/

namespace AgentsOfChange

/-! ## Sessions and the provider world

`Session` models one `MCPTools` handle.  `closeOk` records whether a
later `close()` call on this handle succeeds or raises (the handle's
behaviour is part of the environment, not of the service code).
-/

structure Session where
  id : Nat
  closeOk : Bool
deriving DecidableEq, Repr

/-- Environment for one `_connect_alpha_vantage` invocation:
whether `config.ALPHA_VANTAGE_API_KEY` is set (so
`config.get_alpha_vantage_url()` returns a URL), the outcome of each
numbered connection attempt (`outcome k = true` means the `k`-th call
of `mcp_tools.connect()` succeeds, counting from 1), and the session
handle produced on success. -/
structure AVWorld where
  apiKeyConfigured : Bool
  outcome : Nat → Bool
  session : Session

/-! ## The tenacity retry policy as configured in `mcp_service.py`

`_connect_alpha_vantage` decorates its inner attempt with
`@retry(stop=stop_after_attempt(R), wait=wait_exponential(multiplier=1,
min=1, max=base^(R-1)), retry=retry_if_exception_type(Exception), ...)`
where `R = config.MCP_CONNECTION_RETRIES` (default 3) and
`base = config.MCP_RETRY_BACKOFF_BASE` (default 2).

tenacity's `wait_exponential` computes, after failed attempt number
`k`, the sleep `max(max(0, min), min(multiplier * exp_base**k, max))`;
the call site does not pass `exp_base`, so it stays at the library
default 2.  tenacity's loop makes attempt `k`, returns on success,
stops (raising `RetryError`) when the stop condition `k >= R` holds,
and otherwise sleeps and retries. -/
def wait_exponential (cap k : Nat) : Nat :=
  max (max 0 1) (min (1 * 2 ^ k) cap)

/-- One run of the tenacity retry loop starting at attempt number `k`
with `fuel` further attempts permitted after the current one.
Returns (success?, number of the last attempt made, sleeps performed
in order). -/
def retryLoop (outcome : Nat → Bool) (cap : Nat) : Nat → Nat → Bool × Nat × List Nat
  | k, 0 => (outcome k, k, [])
  | k, fuel + 1 =>
    if outcome k then (true, k, [])
    else
      let rest := retryLoop outcome cap (k + 1) fuel
      (rest.1, rest.2.1, wait_exponential cap k :: rest.2.2)

/-- `MCPService._connect_alpha_vantage` (mcp_service.py:99-139): returns
`None` immediately when no API key is configured; otherwise runs the
tenacity-decorated attempt with `stop_after_attempt R` and
`wait_exponential(multiplier=1, min=1, max=base^(R-1))`, catching the
final exception and returning `None`.  Also returns the number of
attempts made and the list of sleeps, for the retry-policy claims. -/
def connect_alpha_vantage (R base : Nat) (w : AVWorld) :
    Option Session × Nat × List Nat :=
  if w.apiKeyConfigured then
    let r := retryLoop w.outcome (base ^ (R - 1)) 1 (R - 1)
    (if r.1 then some w.session else none, r.2.1, r.2.2)
  else
    (none, 0, [])

/-- `MCPService._open_connections` (mcp_service.py:70-97): collects the
sessions of the providers that connected (only Alpha Vantage is
configured); raises `Exception("Failed to connect to any MCP servers")`
when the list is empty.  Second component: attempts made. -/
def open_connections (R base : Nat) (w : AVWorld) :
    Except String (List Session) × Nat :=
  let c := connect_alpha_vantage R base w
  match c.1 with
  | some s => (.ok [s], c.2.1)
  | none => (.error "Failed to connect to any MCP servers", c.2.1)

/-- `MCPService.connect_all` (mcp_service.py:41-50): under the lock,
assigns `self._mcp_tools_list = await self._open_connections()`.  When
`_open_connections` raises, the assignment does not happen and the pool
keeps its previous value; the exception propagates.  Result:
(outcome, pool after the call, attempts made). -/
def connect_all (R base : Nat) (pool : List Session) (w : AVWorld) :
    Except String Unit × List Session × Nat :=
  match open_connections R base w with
  | (.ok l, n) => (.ok (), l, n)
  | (.error e, n) => (.error e, pool, n)

/-- `MCPService.ensure_connected` (mcp_service.py:52-56): a no-op when
`is_connected` (pool non-empty); otherwise delegates to
`connect_all`. -/
def ensure_connected (R base : Nat) (pool : List Session) (w : AVWorld) :
    Except String Unit × List Session × Nat :=
  if pool.isEmpty then connect_all R base pool w
  else (.ok (), pool, 0)

/-- The per-session close loop of `MCPService.disconnect_all`
(mcp_service.py:61-65): every session's `close()` is attempted; a raise
is caught and logged.  Returns (sessions whose close was attempted, ids
of sessions whose close raised and was logged). -/
def close_loop : List Session → List Session × List Nat
  | [] => ([], [])
  | s :: rest =>
    let r := close_loop rest
    (s :: r.1, if s.closeOk then r.2 else s.id :: r.2)

/-- `MCPService.disconnect_all` (mcp_service.py:58-68): under the lock,
attempts to close every session (logging failures), then
unconditionally sets the pool to `[]`.  The function is total (returns
no `Except`): no close failure propagates.  Result: (pool after the
call, sessions whose close was attempted, logged close-failure ids). -/
def disconnect_all (pool : List Session) :
    List Session × List Session × List Nat :=
  let r := close_loop pool
  ([], r.1, r.2)

/-! ## Input validation (`utils/error_handler.py`) -/

/-- The character set Python's `str.strip()` removes: code points whose
`str.isspace()` is true (ASCII whitespace, the C1 separators, and the
Unicode space characters). -/
def isPySpace (c : Char) : Bool :=
  let n := c.toNat
  decide (9 ≤ n ∧ n ≤ 13) || decide (28 ≤ n ∧ n ≤ 32) ||
  decide (n = 133) || decide (n = 160) || decide (n = 5760) ||
  decide (8192 ≤ n ∧ n ≤ 8202) || decide (n = 8232) || decide (n = 8233) ||
  decide (n = 8239) || decide (n = 8287) || decide (n = 12288)

/-- Python `s.strip()`: drop leading and trailing whitespace. -/
def pyStrip (s : List Char) : List Char :=
  ((s.dropWhile isPySpace).reverse.dropWhile isPySpace).reverse

/-- `validate_input` (error_handler.py:124-143).  The argument is
`request.args.get('input')`, which is `None` when the query parameter
is absent; `if not user_input` is true for both `None` and `""`.
Returns (is_valid, error_message). -/
def validate_input : Option String → Bool × String
  | none => (false, "No input provided")
  | some s =>
    if s = "" then (false, "No input provided")
    else if (pyStrip s.data).length = 0 then (false, "Input cannot be empty")
    else if s.length > 10000 then
      (false, "Input is too long (maximum 10,000 characters)")
    else (true, "")

/-! ## Error translation (`utils/error_handler.py`) -/

/-- Bool-valued list-prefix test (mirrors Python `str.startswith` on
character lists; used to define substring containment). -/
def isPrefixL : List Char → List Char → Bool
  | [], _ => true
  | _ :: _, [] => false
  | a :: as, b :: bs => a == b && isPrefixL as bs

/-- Bool-valued substring test: Python's `pat in s`. -/
def containsSub (pat : List Char) : List Char → Bool
  | [] => pat.isEmpty
  | c :: rest => isPrefixL pat (c :: rest) || containsSub pat rest

/-- Python `pat in s` on strings. -/
def inStr (pat s : String) : Bool :=
  containsSub pat.data s.data

/-- Python `s.lower()` (per-character lowercasing). -/
def lowerStr (s : String) : String :=
  String.mk (s.data.map Char.toLower)

/-- `ErrorHandler.get_user_friendly_message` (error_handler.py:15-73):
lowercases `str(error)` and pattern-matches known substrings in source
order (context-length, network/connection, rate limit, 403/forbidden,
401/unauthorized, timeout), falling back to a generic apology that
embeds `str(error)`. -/
def get_user_friendly_message (error : String) : String :=
  let error_str := lowerStr error
  if inStr "context_length_exceeded" error_str ||
      inStr "maximum context length" error_str then
    "The conversation history has exceeded the maximum token limit. Please refresh the page to start a new conversation."
  else if inStr "network" error_str || inStr "connection" error_str then
    "I\x27m experiencing connectivity issues with the data provider. This might be due to rate limits (free tier allows 5 calls/minute, 25/day). Please wait a moment and try again."
  else if inStr "rate limit" error_str then
    "API rate limit reached. Free Alpha Vantage tier allows 5 requests per minute and 25 per day. Please wait a few minutes before trying again."
  else if inStr "403" error_str || inStr "forbidden" error_str then
    "Access denied by the API. Please verify your Alpha Vantage API key is valid."
  else if inStr "401" error_str || inStr "unauthorized" error_str then
    "Authentication failed. Please check your API keys in the .env file."
  else if inStr "timeout" error_str then
    "Request timed out. The API might be experiencing high load. Please try again in a moment."
  else
    "I\x27m sorry, but something went wrong: " ++ error ++ "\n\nPlease try rephrasing your question or wait a moment before trying again."

/-! ## Streaming chat route (`routes/chat_routes.py`, `Agent Chat/app.py`) -/

/-- One event of a streaming agent run (`chunk.event`, `chunk.content`). -/
structure Chunk where
  event : String
  content : String
deriving DecidableEq, Repr

/-- The `generate` relay loop (chat_routes.py:70-78, Agent Chat
app.py:39-42): for each chunk of the run, yield `chunk.content` exactly
when `chunk.event == 'RunContent'`. -/
def generate : List Chunk → List String
  | [] => []
  | c :: rest =>
    if c.event = "RunContent" then c.content :: generate rest
    else generate rest

/-- The inbound request: the optional `X-Session-ID` header and the
optional `input` query parameter. -/
structure ChatRequest where
  sessionHeader : Option String
  inputParam : Option String

/-- Environment of one `streaming_chat` request: the UUID
`str(uuid.uuid4())` would mint, the exception text raised by
`mcp_service.ensure_connected()` / agent setup before streaming begins
(`none` when setup succeeds), and the events the agent run emits. -/
structure ChatEnv where
  freshUuid : String
  preStreamError : Option String
  runEvents : List Chunk

/-- The HTTP response: status, accumulated body bytes, and the
`X-Session-ID` response header (if set). -/
structure HttpResponse where
  status : Nat
  body : String
  sessionIdHdr : Option String
deriving DecidableEq, Repr

/-- Observable side effects of the handler, in order. -/
inductive Action where
  | ensureConnected
  | createAgent (sessionId : String)
  | runAgent
  | logWarning (msg : String)
  | logError (context : String) (msg : String)
deriving DecidableEq, Repr

/-- `session_id = request.headers.get('X-Session-ID') or str(uuid.uuid4())`
(chat_routes.py:48): Python `or` falls through to the UUID when the
header is absent or the empty string. -/
def resolve_session_id (hdr : Option String) (fresh : String) : String :=
  match hdr with
  | some s => if s = "" then fresh else s
  | none => fresh

/-- `streaming_chat` (chat_routes.py:31-101).  Order as in the source:
resolve the session id, validate the input (raising `ValidationError`
→ 400 response before any MCP/agent work), then ensure MCP
connectivity and build/run the agent (an exception there → 500 response
with `get_user_friendly_message`), else stream the run's content
events with status 200.  The error responses set the `X-Session-ID`
header only under `if session_id:` (non-empty), the success response
unconditionally. -/
def streaming_chat (req : ChatRequest) (env : ChatEnv) :
    HttpResponse × List Action :=
  let sid := resolve_session_id req.sessionHeader env.freshUuid
  let v := validate_input req.inputParam
  if v.1 then
    match env.preStreamError with
    | some e =>
      (⟨500, get_user_friendly_message e, if sid = "" then none else some sid⟩,
       [.ensureConnected, .logError "streaming_chat" e])
    | none =>
      (⟨200, String.join (generate env.runEvents), some sid⟩,
       [.ensureConnected, .createAgent sid, .runAgent])
  else
    (⟨400, "Invalid input: " ++ v.2, if sid = "" then none else some sid⟩,
     [.logWarning v.2])

/-! ## API usage tracker (`utils/api_usage_tracker.py`)

The tracker's JSON dicts are modelled as functions to `Option`
(a key maps to `none` exactly when absent). -/

/-- One day's record in `_usage_data`: `count` and the per-endpoint
call counts. -/
structure DayEntry where
  count : Nat
  endpoints : String → Option Nat

/-- `APIUsageTracker.record_api_call` (api_usage_tracker.py:50-84):
initialize today's entry when absent, increment `count`, and increment
the named endpoint's counter (initializing it to 0 first when
absent). -/
def record_api_call (usage : String → Option DayEntry)
    (today endpoint : String) : String → Option DayEntry :=
  let entry := (usage today).getD ⟨0, fun _ => none⟩
  let newEpCount := (entry.endpoints endpoint).getD 0 + 1
  let entry2 : DayEntry :=
    { count := entry.count + 1
      endpoints := fun e =>
        if e = endpoint then some newEpCount else entry.endpoints e }
  fun d => if d = today then some entry2 else usage d

/-- `APIUsageTracker.get_today_usage` (api_usage_tracker.py:86-115),
restricted to the fields the claims use: today's `count` and
`remaining = max(0, 25 - count)` (`remaining = 25` when today has no
entry). -/
def get_today_usage (usage : String → Option DayEntry) (today : String) :
    Nat × Int :=
  match usage today with
  | none => (0, 25)
  | some e => (e.count, max 0 (25 - (e.count : Int)))

/-- `APIUsageTracker.can_make_request` (api_usage_tracker.py:117-125):
`usage["remaining"] > 0`. -/
def can_make_request (usage : String → Option DayEntry) (today : String) :
    Bool :=
  decide ((get_today_usage usage today).2 > 0)

/-! ## Operation sequences over the connection manager (for the pool
invariant) -/

/-- The three public lifecycle operations of `MCPService`. -/
inductive Op where
  | connect
  | ensure
  | disconnect
deriving DecidableEq, Repr

/-- Effect of one operation (paired with its environment) on the
pool. -/
def step (R base : Nat) (p : Op × AVWorld) (pool : List Session) :
    List Session :=
  match p.1 with
  | .connect => (connect_all R base pool p.2).2.1
  | .ensure => (ensure_connected R base pool p.2).2.1
  | .disconnect => (disconnect_all pool).1

/-- Pool after running a sequence of operations. -/
def runOps (R base : Nat) : List (Op × AVWorld) → List Session → List Session
  | [], pool => pool
  | p :: ops, pool => runOps R base ops (step R base p pool)

/-! ## Retry-policy lemmas -/

theorem wait_exponential_mono (cap : Nat) {i j : Nat} (h : i ≤ j) :
    wait_exponential cap i ≤ wait_exponential cap j := by
  simp only [wait_exponential, Nat.one_mul]
  exact max_le_max le_rfl
    (min_le_min (Nat.pow_le_pow_right (by decide) h) le_rfl)

theorem wait_exponential_le (cap : Nat) (hcap : 1 ≤ cap) (k : Nat) :
    wait_exponential cap k ≤ cap := by
  simp only [wait_exponential, Nat.one_mul]
  exact max_le (by simpa using hcap) (min_le_right _ _)

theorem retryLoop_waits_shape (o : Nat → Bool) (cap : Nat) :
    ∀ fuel k, ∃ m, m ≤ fuel ∧
      (retryLoop o cap k fuel).2.2 =
        (List.range' k m).map (wait_exponential cap)
  | 0, k => ⟨0, Nat.le_refl 0, by simp [retryLoop]⟩
  | fuel + 1, k => by
    by_cases h : o k
    · exact ⟨0, Nat.zero_le _, by simp [retryLoop, h]⟩
    · obtain ⟨m, hm, hws⟩ := retryLoop_waits_shape o cap fuel (k + 1)
      refine ⟨m + 1, by omega, ?_⟩
      simp [retryLoop, h, List.range'_succ, hws]

theorem retryLoop_attempt_le (o : Nat → Bool) (cap : Nat) :
    ∀ fuel k, (retryLoop o cap k fuel).2.1 ≤ k + fuel
  | 0, k => by simp [retryLoop]
  | fuel + 1, k => by
    by_cases h : o k
    · simp [retryLoop, h]
    · have := retryLoop_attempt_le o cap fuel (k + 1)
      simp only [retryLoop, h, if_false, Bool.false_eq_true]
      omega

theorem retryLoop_allfail (o : Nat → Bool) (cap : Nat)
    (ho : ∀ j, o j = false) :
    ∀ fuel k, (retryLoop o cap k fuel).1 = false
  | 0, k => by simp [retryLoop, ho k]
  | fuel + 1, k => by
    simp only [retryLoop, ho k, if_false, Bool.false_eq_true]
    exact retryLoop_allfail o cap ho fuel (k + 1)

theorem connect_av_noconfig (R base : Nat) (w : AVWorld)
    (hk : w.apiKeyConfigured = false) :
    connect_alpha_vantage R base w = (none, 0, []) := by
  simp [connect_alpha_vantage, hk]

theorem connect_av_config (R base : Nat) (w : AVWorld)
    (hk : w.apiKeyConfigured = true) :
    connect_alpha_vantage R base w =
      ((if (retryLoop w.outcome (base ^ (R - 1)) 1 (R - 1)).1 then
          some w.session else none),
       (retryLoop w.outcome (base ^ (R - 1)) 1 (R - 1)).2.1,
       (retryLoop w.outcome (base ^ (R - 1)) 1 (R - 1)).2.2) := by
  simp [connect_alpha_vantage, hk]

/-- C1 (amended): with at least one permitted attempt and a positive
backoff base, `_connect_alpha_vantage` makes at most
`MCP_CONNECTION_RETRIES` attempts; the waits between attempts are
non-decreasing and each is at most `base ^ (R - 1)`; and the wait
sequence is an initial run of `wait_exponential` — exponential growth
with the library-default base 2 and multiplier 1, clamped between 1 and
the cap `base ^ (R - 1)`.  (The configured backoff base shapes only the
cap, not the growth rate — see the counterexample.) -/
theorem C1_retry_policy (R base : Nat) (w : AVWorld)
    (hR : 1 ≤ R) (hbase : 1 ≤ base) :
    (connect_alpha_vantage R base w).2.1 ≤ R ∧
    List.Pairwise (· ≤ ·) (connect_alpha_vantage R base w).2.2 ∧
    (∀ x ∈ (connect_alpha_vantage R base w).2.2, x ≤ base ^ (R - 1)) ∧
    ∃ m, m ≤ R - 1 ∧
      (connect_alpha_vantage R base w).2.2 =
        (List.range' 1 m).map (wait_exponential (base ^ (R - 1))) := by
  by_cases hk : w.apiKeyConfigured
  · rw [connect_av_config R base w hk]
    dsimp only
    obtain ⟨m, hm, hws⟩ :=
      retryLoop_waits_shape w.outcome (base ^ (R - 1)) (R - 1) 1
    have hatt := retryLoop_attempt_le w.outcome (base ^ (R - 1)) (R - 1) 1
    have hcap : 1 ≤ base ^ (R - 1) := Nat.one_le_pow _ _ hbase
    refine ⟨by omega, ?_, ?_, ⟨m, hm, hws⟩⟩
    · rw [hws, List.pairwise_map]
      exact (List.pairwise_lt_range' 1 m).imp
        (fun h => wait_exponential_mono _ (Nat.le_of_lt h))
    · intro x hx
      rw [hws] at hx
      obtain ⟨j, _, rfl⟩ := List.mem_map.mp hx
      exact wait_exponential_le _ hcap j
  · rw [connect_av_noconfig R base w (by simpa using hk)]
    exact ⟨Nat.zero_le _, by simp, by simp, ⟨0, Nat.zero_le _, by simp⟩⟩

/-- Witness for `C1_retry_policy` at the default configuration
(3 retries, backoff base 2) with every attempt failing. -/
theorem C1_retry_policy_witness :
    (connect_alpha_vantage 3 2 ⟨true, fun _ => false, ⟨0, true⟩⟩).2.1 ≤ 3 ∧
    List.Pairwise (· ≤ ·)
      (connect_alpha_vantage 3 2 ⟨true, fun _ => false, ⟨0, true⟩⟩).2.2 ∧
    (∀ x ∈ (connect_alpha_vantage 3 2 ⟨true, fun _ => false, ⟨0, true⟩⟩).2.2,
      x ≤ 2 ^ (3 - 1)) ∧
    ∃ m, m ≤ 3 - 1 ∧
      (connect_alpha_vantage 3 2 ⟨true, fun _ => false, ⟨0, true⟩⟩).2.2 =
        (List.range' 1 m).map (wait_exponential (2 ^ (3 - 1))) :=
  C1_retry_policy 3 2 ⟨true, fun _ => false, ⟨0, true⟩⟩ (by decide) (by decide)

/-- C1 counterexample: with `MCP_RETRY_BACKOFF_BASE = 3` and
`MCP_CONNECTION_RETRIES = 3` and every attempt failing, the waits are
`[2, 4]` — successive waits (both strictly below the cap `3 ^ 2 = 9`)
grow by a factor of 2, not by the configured base 3, refuting the claim
that the wait "grows exponentially with the configured backoff base". -/
theorem C1_backoff_base_counterexample :
    (connect_alpha_vantage 3 3 ⟨true, fun _ => false, ⟨0, true⟩⟩).2.2 = [2, 4] ∧
    ¬ List.Chain' (fun a b => b = 3 * a)
        (connect_alpha_vantage 3 3 ⟨true, fun _ => false, ⟨0, true⟩⟩).2.2 := by
  have h : (connect_alpha_vantage 3 3 ⟨true, fun _ => false, ⟨0, true⟩⟩).2.2
      = [2, 4] := by decide
  refine ⟨h, ?_⟩
  rw [h]
  simp [List.chain'_cons]

/-! ## connect_all / ensure_connected / disconnect_all -/

theorem connect_av_fail_none (R base : Nat) (w : AVWorld)
    (hfail : ∀ k, w.outcome k = false) :
    (connect_alpha_vantage R base w).1 = none := by
  by_cases hk : w.apiKeyConfigured
  · rw [connect_av_config R base w hk]
    simp [retryLoop_allfail w.outcome _ hfail]
  · rw [connect_av_noconfig R base w (by simpa using hk)]

/-- C2: when every connection attempt fails, `connect_all` on an empty
pool raises the "no providers" error (the
`Exception("Failed to connect to any MCP servers")` of
`_open_connections`) and the pool stays empty: the failed
`_open_connections` call never assigns `_mcp_tools_list`. -/
theorem C2_no_providers (R base : Nat) (w : AVWorld)
    (hfail : ∀ k, w.outcome k = false) :
    (connect_all R base [] w).1 =
      Except.error "Failed to connect to any MCP servers" ∧
    (connect_all R base [] w).2.1 = [] := by
  have hav := connect_av_fail_none R base w hfail
  simp [connect_all, open_connections, hav]

/-- Witness for `C2_no_providers`: default configuration, API key set,
all three attempts fail. -/
theorem C2_no_providers_witness :
    (connect_all 3 2 [] ⟨true, fun _ => false, ⟨0, true⟩⟩).1 =
      Except.error "Failed to connect to any MCP servers" ∧
    (connect_all 3 2 [] ⟨true, fun _ => false, ⟨0, true⟩⟩).2.1 = [] :=
  C2_no_providers 3 2 ⟨true, fun _ => false, ⟨0, true⟩⟩ (fun _ => rfl)

theorem close_loop_eq (pool : List Session) :
    close_loop pool =
      (pool, (pool.filter (fun s => !s.closeOk)).map Session.id) := by
  induction pool with
  | nil => rfl
  | cons s rest ih =>
    by_cases h : s.closeOk <;>
      simp [close_loop, ih, List.filter_cons, h]

/-- C3: `disconnect_all` is total (it returns, never raises — a close
failure is caught and logged inside the loop), attempts to close every
session in the pool, logs exactly the sessions whose close raised, and
leaves the pool empty unconditionally. -/
theorem C3_disconnect_forced (pool : List Session) :
    disconnect_all pool =
      ([], pool, (pool.filter (fun s => !s.closeOk)).map Session.id) := by
  simp [disconnect_all, close_loop_eq]

theorem connect_av_attempts_le (R base : Nat) (w : AVWorld) (hR : 1 ≤ R) :
    (connect_alpha_vantage R base w).2.1 ≤ R := by
  by_cases hk : w.apiKeyConfigured
  · rw [connect_av_config R base w hk]
    have h := retryLoop_attempt_le w.outcome (base ^ (R - 1)) (R - 1) 1
    dsimp only
    omega
  · rw [connect_av_noconfig R base w (by simpa using hk)]
    exact Nat.zero_le _

theorem connect_all_attempts_eq (R base : Nat) (pool : List Session)
    (w : AVWorld) :
    (connect_all R base pool w).2.2 = (connect_alpha_vantage R base w).2.1 := by
  cases h : (connect_alpha_vantage R base w).1 <;>
    simp [connect_all, open_connections, h]

/-- C4: `ensure_connected` is a no-op making zero connection attempts
on a non-empty pool; on an empty pool it is exactly `connect_all`; and
after a fully failed cycle the pool is empty again, so the next
`ensure_connected` behaves as a fresh `connect_all` whose attempt count
is bounded by `R` — the attempt budget resets, it is not cumulative
across calls. -/
theorem C4_ensure_lazy_reconnect (R base : Nat) (pool : List Session)
    (w w2 : AVWorld) (hR : 1 ≤ R) :
    (pool ≠ [] → ensure_connected R base pool w = (.ok (), pool, 0)) ∧
    ensure_connected R base [] w = connect_all R base [] w ∧
    ((∀ k, w.outcome k = false) →
      (ensure_connected R base [] w).2.1 = [] ∧
      ensure_connected R base (ensure_connected R base [] w).2.1 w2 =
        connect_all R base [] w2 ∧
      (connect_all R base [] w2).2.2 ≤ R) := by
  refine ⟨?_, ?_, ?_⟩
  · intro hne
    simp [ensure_connected, List.isEmpty_iff, hne]
  · simp [ensure_connected]
  · intro hfail
    have hpool : (ensure_connected R base [] w).2.1 = [] := by
      rw [show ensure_connected R base [] w = connect_all R base [] w from
        by simp [ensure_connected]]
      exact (C2_no_providers R base w hfail).2
    refine ⟨hpool, ?_, ?_⟩
    · rw [hpool]; simp [ensure_connected]
    · rw [connect_all_attempts_eq]
      exact connect_av_attempts_le R base w2 hR

/-- Witness for `C4_ensure_lazy_reconnect`: non-empty pool, default
configuration, first world failing everywhere. -/
theorem C4_ensure_lazy_reconnect_witness :
    ensure_connected 3 2 [⟨0, true⟩] ⟨true, fun _ => false, ⟨0, true⟩⟩ =
      (.ok (), [⟨0, true⟩], 0) ∧
    (ensure_connected 3 2 [] ⟨true, fun _ => false, ⟨0, true⟩⟩).2.1 = [] := by
  have h := C4_ensure_lazy_reconnect 3 2 [⟨0, true⟩]
    ⟨true, fun _ => false, ⟨0, true⟩⟩ ⟨true, fun _ => true, ⟨1, true⟩⟩
    (by decide)
  exact ⟨h.1 (by simp), (h.2.2 (fun _ => rfl)).1⟩

/-! ## The pool invariant (C5) -/

theorem mem_connect_all_pool {R base : Nat} {pool : List Session}
    {w : AVWorld} {x : Session}
    (hx : x ∈ (connect_all R base pool w).2.1) :
    x ∈ pool ∨ (connect_alpha_vantage R base w).1 = some x := by
  cases h : (connect_alpha_vantage R base w).1 with
  | some s =>
    right
    simp [connect_all, open_connections, h] at hx
    rw [hx]
  | none =>
    left
    simpa [connect_all, open_connections, h] using hx

theorem mem_step {R base : Nat} {p : Op × AVWorld} {pool : List Session}
    {x : Session} (hx : x ∈ step R base p pool) :
    x ∈ pool ∨ (connect_alpha_vantage R base p.2).1 = some x := by
  cases hop : p.1 with
  | connect =>
    rw [step, hop] at hx
    exact mem_connect_all_pool hx
  | ensure =>
    rw [step, hop] at hx
    by_cases he : pool.isEmpty
    · rw [ensure_connected, if_pos he] at hx
      exact mem_connect_all_pool hx
    · rw [ensure_connected, if_neg he] at hx
      exact .inl hx
  | disconnect =>
    rw [step, hop] at hx
    simp [disconnect_all] at hx

theorem mem_runOps {R base : Nat} :
    ∀ (l : List (Op × AVWorld)) (pool : List Session) (x : Session),
      x ∈ runOps R base l pool →
      x ∈ pool ∨ ∃ p ∈ l, (connect_alpha_vantage R base p.2).1 = some x
  | [], _, _, hx => .inl hx
  | p :: ops, pool, x, hx => by
    rcases mem_runOps ops (step R base p pool) x hx with h | ⟨q, hq, hcq⟩
    · rcases mem_step h with h' | hc
      · exact .inl h'
      · exact .inr ⟨p, List.mem_cons_self p ops, hc⟩
    · exact .inr ⟨q, List.mem_cons_of_mem p hq, hcq⟩

/-- C5: starting from the empty pool, under any sequence of
`connect_all` / `ensure_connected` / `disconnect_all` operations, every
session in the pool was produced by a successful
`_connect_alpha_vantage`; a failed connection attempt never contributes
an entry. -/
theorem C5_pool_invariant (R base : Nat) (l : List (Op × AVWorld))
    (x : Session) (hx : x ∈ runOps R base l []) :
    ∃ p ∈ l, (connect_alpha_vantage R base p.2).1 = some x := by
  rcases mem_runOps l [] x hx with h | h
  · exact absurd h (List.not_mem_nil x)
  · exact h

/-- Witness for `C5_pool_invariant`: one `connect` whose first attempt
succeeds. -/
theorem C5_pool_invariant_witness :
    ∃ p ∈ [((Op.connect, ⟨true, fun _ => true, ⟨0, true⟩⟩) : Op × AVWorld)],
      (connect_alpha_vantage 3 2 p.2).1 = some ⟨0, true⟩ :=
  C5_pool_invariant 3 2 [(Op.connect, ⟨true, fun _ => true, ⟨0, true⟩⟩)]
    ⟨0, true⟩ (by decide)

/-! ## Input validation (C6) -/

theorem pyStrip_eq_nil_iff (s : List Char) :
    pyStrip s = [] ↔ ∀ c ∈ s, isPySpace c := by
  constructor
  · intro h c hc
    rw [pyStrip, List.reverse_eq_nil_iff, List.dropWhile_eq_nil_iff] at h
    rw [← List.takeWhile_append_dropWhile (p := isPySpace) (l := s)] at hc
    rcases List.mem_append.mp hc with h1 | h2
    · exact List.mem_takeWhile_imp h1
    · exact h _ (List.mem_reverse.mpr h2)
  · intro h
    rw [pyStrip, List.reverse_eq_nil_iff, List.dropWhile_eq_nil_iff]
    intro c hc
    exact h _ ((List.dropWhile_sublist isPySpace).subset (List.mem_reverse.mp hc))

/-- C6: `validate_input` rejects a missing input, the empty string,
every whitespace-only string, and every string longer than 10,000
characters, and accepts any string of exactly 10,000 characters that
is not whitespace-only; in `streaming_chat`, a rejected input produces
the 400 response without ever touching the MCP connections or
constructing an agent. -/
theorem C6_input_validation :
    (validate_input none).1 = false ∧
    (validate_input (some "")).1 = false ∧
    (∀ s : String, (∀ c ∈ s.data, isPySpace c) →
      (validate_input (some s)).1 = false) ∧
    (∀ s : String, 10000 < s.length → (validate_input (some s)).1 = false) ∧
    (∀ s : String, s.length = 10000 → (∃ c ∈ s.data, isPySpace c = false) →
      validate_input (some s) = (true, "")) ∧
    (∀ (req : ChatRequest) (env : ChatEnv),
      (validate_input req.inputParam).1 = false →
      (streaming_chat req env).1.status = 400 ∧
      Action.ensureConnected ∉ (streaming_chat req env).2 ∧
      (∀ sid, Action.createAgent sid ∉ (streaming_chat req env).2)) := by
  refine ⟨rfl, rfl, ?_, ?_, ?_, ?_⟩
  · intro s hsp
    by_cases hs : s = ""
    · subst hs; rfl
    · have h0 : (pyStrip s.data).length = 0 := by
        rw [List.length_eq_zero, pyStrip_eq_nil_iff]; exact hsp
      simp [validate_input, hs, h0]
  · intro s hlen
    simp only [validate_input]
    split_ifs with h1 h2 <;> rfl
  · intro s hlen hex
    have hs : s ≠ "" := by
      intro h
      subst h
      obtain ⟨c, hc, -⟩ := hex
      exact absurd hc (List.not_mem_nil c)
    have hstrip : ¬ (pyStrip s.data).length = 0 := by
      rw [List.length_eq_zero, pyStrip_eq_nil_iff]
      intro hall
      obtain ⟨c, hc, hcf⟩ := hex
      rw [hall c hc] at hcf
      cases hcf
    have hlong : ¬ s.length > 10000 := by omega
    simp [validate_input, hs, hstrip, hlong]
  · intro req env h
    simp [streaming_chat, h]

/-- Witness for `C6_input_validation`: a whitespace-only input, a
10,001-character input, a 10,000-character input, and an invalid
request hitting the route. -/
theorem C6_input_validation_witness :
    (validate_input (some " ")).1 = false ∧
    (validate_input (some (String.mk (List.replicate 10001 'a')))).1 = false ∧
    validate_input (some (String.mk (List.replicate 10000 'a'))) = (true, "") ∧
    (streaming_chat ⟨none, some ""⟩ ⟨"u1", none, []⟩).1.status = 400 := by
  obtain ⟨-, h2, h3, h4, h5, h6⟩ := C6_input_validation
  refine ⟨h3 " " (by decide), h4 _ ?_, h5 _ ?_ ⟨'a', ?_, by decide⟩,
    (h6 ⟨none, some ""⟩ ⟨"u1", none, []⟩ h2).1⟩
  · show 10000 < (List.replicate 10001 'a').length
    rw [List.length_replicate]
    omega
  · show (List.replicate 10000 'a').length = 10000
    rw [List.length_replicate]
  · exact List.mem_replicate.mpr ⟨by omega, rfl⟩

/-! ## Content-event relay (C7) -/

/-- C7: the relay emits exactly the `content` payloads of the
`RunContent`-tagged events, in stream order; an event of any other tag
contributes nothing to the output (deleting it leaves the emitted
byte sequence unchanged). -/
theorem C7_content_events_only :
    (∀ events : List Chunk,
      generate events =
        (events.filter (fun c => c.event == "RunContent")).map Chunk.content) ∧
    (∀ (xs ys : List Chunk) (e : Chunk), e.event ≠ "RunContent" →
      generate (xs ++ e :: ys) = generate (xs ++ ys)) := by
  constructor
  · intro events
    induction events with
    | nil => rfl
    | cons c rest ih =>
      by_cases h : c.event = "RunContent" <;>
        simp [generate, List.filter_cons, h, ih]
  · intro xs ys e he
    induction xs with
    | nil => simp [generate, he]
    | cons x xs ih =>
      by_cases h : x.event = "RunContent" <;>
        simp [generate, h, ih]

/-- Witness for `C7_content_events_only`: one lifecycle event and one
content event. -/
theorem C7_content_events_only_witness :
    generate [⟨"RunStarted", "X"⟩, ⟨"RunContent", "Hi"⟩] = ["Hi"] ∧
    generate ([⟨"RunContent", "Hi"⟩] ++ ⟨"RunStarted", "X"⟩ :: []) =
      generate ([⟨"RunContent", "Hi"⟩] ++ []) :=
  ⟨(C7_content_events_only.1 [⟨"RunStarted", "X"⟩, ⟨"RunContent", "Hi"⟩]).trans
      (by decide),
   C7_content_events_only.2 [⟨"RunContent", "Hi"⟩] [] ⟨"RunStarted", "X"⟩
      (by decide)⟩

/-! ## Session identity echo (C8) -/

theorem streaming_chat_hdr (req : ChatRequest) (env : ChatEnv)
    (h : resolve_session_id req.sessionHeader env.freshUuid ≠ "") :
    (streaming_chat req env).1.sessionIdHdr =
      some (resolve_session_id req.sessionHeader env.freshUuid) := by
  simp only [streaming_chat]
  by_cases hv : (validate_input req.inputParam).1
  · simp only [hv, if_true]
    cases env.preStreamError <;> simp [h]
  · simp [hv, h]

/-- C8: the resolved conversation identity is attached as the
`X-Session-ID` header on every response — a caller-supplied non-empty
header value is echoed back unchanged, and when the header is absent or
empty the freshly minted UUID is used and echoed back (on the success,
validation-error and internal-error paths alike). -/
theorem C8_session_identity (req : ChatRequest) (env : ChatEnv)
    (hfresh : env.freshUuid ≠ "") :
    (∀ s, req.sessionHeader = some s → s ≠ "" →
      (streaming_chat req env).1.sessionIdHdr = some s) ∧
    ((req.sessionHeader = none ∨ req.sessionHeader = some "") →
      (streaming_chat req env).1.sessionIdHdr = some env.freshUuid) := by
  constructor
  · intro s hs hne
    have hres : resolve_session_id req.sessionHeader env.freshUuid = s := by
      simp [resolve_session_id, hs, hne]
    rw [streaming_chat_hdr req env (by rw [hres]; exact hne), hres]
  · intro hcase
    have hres : resolve_session_id req.sessionHeader env.freshUuid =
        env.freshUuid := by
      rcases hcase with h | h <;> simp [resolve_session_id, h]
    rw [streaming_chat_hdr req env (by rw [hres]; exact hfresh), hres]

/-- Witness for `C8_session_identity`: an echoed caller identity and a
minted one, on a validation-error response and a success response. -/
theorem C8_session_identity_witness :
    (streaming_chat ⟨some "abc", some ""⟩
      ⟨"u1", none, []⟩).1.sessionIdHdr = some "abc" ∧
    (streaming_chat ⟨none, some "hello"⟩
      ⟨"u1", none, []⟩).1.sessionIdHdr = some "u1" :=
  ⟨(C8_session_identity ⟨some "abc", some ""⟩ ⟨"u1", none, []⟩
      (by decide)).1 "abc" rfl (by decide),
   (C8_session_identity ⟨none, some "hello"⟩ ⟨"u1", none, []⟩
      (by decide)).2 (Or.inl rfl)⟩

/-! ## Error responses (C9) -/

theorem isPrefixL_self_append (l t : List Char) : isPrefixL l (l ++ t) = true := by
  induction l with
  | nil => rfl
  | cons a as ih => simp [isPrefixL, ih]

theorem containsSub_nil_pat (s : List Char) : containsSub [] s = true := by
  induction s with
  | nil => rfl
  | cons c rest ih => simp [containsSub, isPrefixL, ih]

theorem containsSub_self_append (pat suf : List Char) :
    containsSub pat (pat ++ suf) = true := by
  cases pat with
  | nil => exact containsSub_nil_pat _
  | cons c cs => simp [containsSub, isPrefixL, isPrefixL_self_append]

theorem containsSub_append (pre pat suf : List Char) :
    containsSub pat (pre ++ (pat ++ suf)) = true := by
  induction pre with
  | nil => exact containsSub_self_append pat suf
  | cons a pre ih => simp [containsSub, ih]

/-- C9: a validation failure produces status 400 with the specific
`Invalid input: ...` message; any error raised before streaming (other
than validation) produces status 500 whose body is
`get_user_friendly_message` of the error — a category message chosen by
substring matching — while the full error is logged server-side; and
when no known category substring matches, the fallback message embeds
the stringified cause. -/
theorem C9_error_responses (req : ChatRequest) (env : ChatEnv) :
    ((validate_input req.inputParam).1 = false →
      (streaming_chat req env).1.status = 400 ∧
      (streaming_chat req env).1.body =
        "Invalid input: " ++ (validate_input req.inputParam).2) ∧
    (∀ e, (validate_input req.inputParam).1 = true →
      env.preStreamError = some e →
      (streaming_chat req env).1.status = 500 ∧
      (streaming_chat req env).1.body = get_user_friendly_message e ∧
      Action.logError "streaming_chat" e ∈ (streaming_chat req env).2) ∧
    (∀ e : String,
      (inStr "context_length_exceeded" (lowerStr e) = false ∧
       inStr "maximum context length" (lowerStr e) = false ∧
       inStr "network" (lowerStr e) = false ∧
       inStr "connection" (lowerStr e) = false ∧
       inStr "rate limit" (lowerStr e) = false ∧
       inStr "403" (lowerStr e) = false ∧
       inStr "forbidden" (lowerStr e) = false ∧
       inStr "401" (lowerStr e) = false ∧
       inStr "unauthorized" (lowerStr e) = false ∧
       inStr "timeout" (lowerStr e) = false) →
      inStr e (get_user_friendly_message e) = true) := by
  refine ⟨?_, ?_, ?_⟩
  · intro h
    simp [streaming_chat, h]
  · intro e hv he
    simp [streaming_chat, hv, he]
  · intro e ⟨h1, h2, h3, h4, h5, h6, h7, h8, h9, h10⟩
    simp only [get_user_friendly_message, h1, h2, h3, h4, h5, h6, h7, h8,
      h9, h10, Bool.or_self, Bool.or_false, Bool.false_eq_true, if_false]
    show containsSub e.data
      (("I\x27m sorry, but something went wrong: " ++ e ++
        "\n\nPlease try rephrasing your question or wait a moment before trying again.").data) = true
    rw [String.data_append, String.data_append, List.append_assoc]
    exact containsSub_append _ _ _

/-- Witness for `C9_error_responses`: an invalid request (400), an
unclassified pre-streaming error (500 with the generic message), and
the fallback containing the cause. -/
theorem C9_error_responses_witness :
    (streaming_chat ⟨some "abc", some ""⟩ ⟨"u1", none, []⟩).1.status = 400 ∧
    (streaming_chat ⟨some "abc", some "hello"⟩
      ⟨"u1", some "boom", []⟩).1.status = 500 ∧
    inStr "boom" (get_user_friendly_message "boom") = true :=
  ⟨((C9_error_responses ⟨some "abc", some ""⟩ ⟨"u1", none, []⟩).1
      (by decide)).1,
   ((C9_error_responses ⟨some "abc", some "hello"⟩
      ⟨"u1", some "boom", []⟩).2.1 "boom" (by decide) rfl).1,
   (C9_error_responses ⟨some "abc", some "hello"⟩
      ⟨"u1", some "boom", []⟩).2.2 "boom" (by decide)⟩

/-! ## Usage tracker (C10) -/

/-- C10: for every prior tracker state and endpoint name,
`record_api_call` increments today's total count by exactly 1 and the
named endpoint's count by exactly 1 (initializing today's entry when
absent), and `can_make_request` is true exactly when today's recorded
total is strictly below 25. -/
theorem C10_usage_tracking (usage : String → Option DayEntry)
    (today endpoint : String) :
    ((record_api_call usage today endpoint today).map DayEntry.count).getD 0 =
      ((usage today).map DayEntry.count).getD 0 + 1 ∧
    ((record_api_call usage today endpoint today).bind
        (fun d => d.endpoints endpoint)).getD 0 =
      ((usage today).bind (fun d => d.endpoints endpoint)).getD 0 + 1 ∧
    (can_make_request usage today = true ↔
      ((usage today).map DayEntry.count).getD 0 < 25) := by
  refine ⟨?_, ?_, ?_⟩
  · cases h : usage today <;> simp [record_api_call, h]
  · cases h : usage today with
    | none => simp [record_api_call, h]
    | some e =>
      cases h2 : e.endpoints endpoint <;>
        simp [record_api_call, h, h2]
  · rw [can_make_request, decide_eq_true_iff]
    cases h : usage today with
    | none => simp [get_today_usage, h]
    | some e =>
      simp only [get_today_usage, h, Option.map_some', Option.getD_some]
      rw [gt_iff_lt, lt_max_iff]
      omega

end AgentsOfChange
